import Mathlib

/-!
# gosplunk: the `deploy` command (`cmd/deploy.go`)

A shallow embedding of the deployment orchestration of `cmd/deploy.go`:
the sizing-flag validation, the platform selection, the five-step govc
pipeline of the vSphere driver, the REST workflow of the AHV driver and the
`deploy` command that ties them together.

Modelling conventions.

* Go `string` is `String`; Go `int` is `Int`, and the one arithmetic
  operation of the file (`p.AppDiskGB*1e+9`) wraps to 64 bits (`wrapInt`).
* Go `error` is `Option String`: `none` is `nil`, `some msg` an error whose
  text is `msg`.
* External collaborators (the govc tool, the HTTP endpoint, the gjson
  queries, `os.Setenv`, viper) are fields of `World` and `Config`: every
  theorem quantifies over them. The oracles see the trace of the calls made
  so far, so a collaborator may answer the same call differently over time.
* Effects are recorded in a `Trace` (a chronological list of `Event`s).
  `os.Exit` and a runtime panic are outcomes of `Result`. Console output is
  not modelled.
-/

namespace Gosplunk

set_option maxRecDepth 100000

/-! ## Data model -/

/-- A sizing tier, `type Package struct`. -/
structure Package where
  Cpu : Int
  MemoryMB : Int
  AppDiskGB : Int
  deriving DecidableEq, Repr

/-- The `vcenter` configuration section, `type VCenter struct`. -/
structure VCenter where
  Url : String
  Username : String
  Password : String
  Template : String
  Datastore : String
  Network : String
  ResourcePool : String
  Datacenter : String
  deriving DecidableEq, Repr

/-- The `ahv` configuration section plus the derived `URI`, `type AHVCluster struct`. -/
structure AHVCluster where
  URL : String
  Username : String
  Password : String
  Template : String
  NetworkUUID : String
  StorageContainerUUID : String
  VolumeGroup : String
  Insecure : Bool
  URI : String
  deriving DecidableEq, Repr

/-- A provisioning target, `type Server struct`. -/
structure Server where
  Name : String
  IPAddress : String
  Netmask : String
  Gateway : String
  deriving DecidableEq, Repr

/-- The platform tag `AHV`. -/
def AHV : String := "AHV"

/-- The platform tag `VSPHERE`. -/
def VSPHERE : String := "VSPHERE"

/-- The small tier. -/
def smallPackage : Package := { Cpu := 2, MemoryMB := 8096, AppDiskGB := 10 }

/-- The medium tier. -/
def mediumPackage : Package := { Cpu := 4, MemoryMB := 16384, AppDiskGB := 20 }

/-- The large tier. -/
def largePackage : Package := { Cpu := 8, MemoryMB := 32768, AppDiskGB := 40 }

/-- The three sizing flags `*smallFlag`, `*mediumFlag`, `*largeFlag`. -/
structure Flags where
  small : Bool
  medium : Bool
  large : Bool
  deriving DecidableEq, Repr

/-- Go `int` arithmetic on a 64-bit target: the exact result reduced to the
two's-complement range `[-2^63, 2^63)`. -/
def wrapInt (x : Int) : Int := (x + 2 ^ 63) % 2 ^ 64 - 2 ^ 63

/-! ## Effects -/

/-- An observable call to an external collaborator. -/
inductive Event where
  | govc (args : List String)
  | get (url : String)
  | post (url : String) (payload : String)
  | sleep (seconds : Nat)
  deriving DecidableEq, Repr

/-- The calls made so far, oldest first. -/
abbrev Trace := List Event

/-- How an HTTP exchange ends: `http.NewRequest` fails (nothing is sent),
`client.Do` fails, or a response arrives. -/
inductive HttpReply (α : Type) where
  | badRequest (err : String)
  | transport (err : String)
  | response (a : α)
  deriving DecidableEq, Repr

/-- The external collaborators. Each oracle receives the trace so far. -/
structure World where
  /-- Exit status of `cli.Run(args)`. -/
  govc : Trace → List String → Int
  /-- Outcome of a GET on a URL; a response is its body. -/
  httpGet : Trace → String → HttpReply String
  /-- Outcome of a POST of a payload to a URL; a response is its body and status code. -/
  httpPost : Trace → String → String → HttpReply (String × Int)
  /-- The strings of `gjson.Get(json, path).Array()`. -/
  gjsonStrings : String → String → List String
  /-- The error of `os.Setenv(k, v)`, if any. -/
  setenvErr : String → String → Option String

/-- The loaded configuration, as seen through the viper calls of the file. -/
structure Config where
  /-- Whether `viper.Sub("ahv")` is non-nil. -/
  hasAhv : Bool
  /-- Whether `viper.Sub("vcenter")` is non-nil. -/
  hasVcenter : Bool
  /-- The result of `viper.UnmarshalKey("vcenter", &vc)` on a zero `vc`. -/
  vcenter : Except String VCenter
  /-- The result of `viper.UnmarshalKey("ahv", ahv)`: the error and the receiver afterwards. -/
  ahv : AHVCluster → Option String × AHVCluster
  /-- The result of `viper.UnmarshalKey("servers", &srvs)`. -/
  servers : Except String (List Server)

/-- How a function call ends: it returns, the process exits (`os.Exit`), or
the goroutine panics. -/
inductive Result (α : Type) where
  | ret (a : α)
  | exit (code : Int)
  | panic
  deriving DecidableEq, Repr

/-- The process environment read by `os.Getenv`. -/
abbrev Environ := String → String

/-! ## Flag validation and platform selection -/

/-- The function `checkFlags`. -/
def checkFlags (f : Flags) : Option String :=
  if !f.small && !f.medium && !f.large then
    some "--small, --medium, or --large flags must be set. Only one flag can be specified at a time"
  else if (f.small && f.medium) || (f.small && f.large) || (f.medium && f.large) then
    some "only one package size can sprecified"
  else
    none

/-- The function `checkPlatform`. -/
def checkPlatform (cfg : Config) : String :=
  if cfg.hasAhv then AHV
  else if cfg.hasVcenter then VSPHERE
  else ""

/-! ## vSphere driver -/

/-- The function `runGOVC`: one invocation of the tool, recorded in the trace. -/
def runGOVC (w : World) (args : List String) (t : Trace) : Int × Trace :=
  (w.govc t args, t ++ [Event.govc args])

/-- The argument list built by `cloneVM`. -/
def cloneVMArgs (env : Environ) (p : Package) (host : Server) : List String :=
  ["vm.clone",
   "-vm", env "GOVC_TEMPLATE",
   "-on=false",
   "-c=" ++ toString p.Cpu,
   "-m=" ++ toString p.MemoryMB,
   "-net=" ++ env "GOVC_NETWORK",
   "-net.adapter=vmxnet3",
   host.Name]

/-- The function `cloneVM`. -/
def cloneVM (w : World) (env : Environ) (p : Package) (host : Server) (t : Trace) :
    Option String × Trace :=
  let vmCfg := cloneVMArgs env p host
  let r := runGOVC w vmCfg t
  if r.1 ≠ 0 then (some ("failed to create virtual machine " ++ host.Name), r.2)
  else (none, r.2)

/-- The argument list built by `createVMDisk`. -/
def createVMDiskArgs (p : Package) (host : Server) : List String :=
  ["vm.disk.create",
   "-vm", host.Name,
   "-name", host.Name ++ "/" ++ host.Name ++ "_001",
   "-size", toString p.AppDiskGB ++ "G",
   "-thick=true"]

/-- The function `createVMDisk`. -/
def createVMDisk (w : World) (p : Package) (host : Server) (t : Trace) :
    Option String × Trace :=
  let diskCfg := createVMDiskArgs p host
  let r := runGOVC w diskCfg t
  if r.1 ≠ 0 then (some ("failed to create disk for virtual machine " ++ host.Name), r.2)
  else (none, r.2)

/-- The argument list built by `setNicStartConnected`. -/
def setNicStartConnectedArgs (host : Server) : List String :=
  ["device.connect", "-vm", host.Name, "ethernet-0"]

/-- The function `setNicStartConnected` (its package argument is unused). -/
def setNicStartConnected (w : World) (_p : Package) (host : Server) (t : Trace) :
    Option String × Trace :=
  let connectCfg := setNicStartConnectedArgs host
  let r := runGOVC w connectCfg t
  if r.1 ≠ 0 then
    (some ("failed to set vmxnet3 adapter to start connected on virtual machine " ++ host.Name), r.2)
  else (none, r.2)

/-- The argument list built by `setIPAddress`. -/
def setIPAddressArgs (host : Server) : List String :=
  ["vm.customize",
   "-vm", host.Name,
   "-ip", host.IPAddress,
   "-netmask", host.Netmask,
   "-gateway", host.Gateway]

/-- The function `setIPAddress`. -/
def setIPAddress (w : World) (host : Server) (t : Trace) : Option String × Trace :=
  let netCfg := setIPAddressArgs host
  let r := runGOVC w netCfg t
  if r.1 ≠ 0 then (some ("failed to set ip address of " ++ host.Name), r.2)
  else (none, r.2)

/-- The argument list built by `powerOn`. -/
def powerOnArgs (host : Server) : List String :=
  ["vm.power", "-on", host.Name]

/-- The function `powerOn`. -/
def powerOn (w : World) (host : Server) (t : Trace) : Option String × Trace :=
  let pwrCmd := powerOnArgs host
  let r := runGOVC w pwrCmd t
  if r.1 ≠ 0 then (some ("failed to power on " ++ host.Name), r.2)
  else (none, r.2)

/-- The function `deployPackage`: the five steps in order, returning at the
first error. -/
def deployPackage (w : World) (env : Environ) (p : Package) (host : Server) (t : Trace) :
    Option String × Trace :=
  match cloneVM w env p host t with
  | (some err, t1) => (some err, t1)
  | (none, t1) =>
    match createVMDisk w p host t1 with
    | (some err, t2) => (some err, t2)
    | (none, t2) =>
      match setNicStartConnected w p host t2 with
      | (some err, t3) => (some err, t3)
      | (none, t3) =>
        match setIPAddress w host t3 with
        | (some err, t4) => (some err, t4)
        | (none, t4) =>
          match powerOn w host t4 with
          | (some err, t5) => (some err, t5)
          | (none, t5) => (none, t5)

/-! ## AHV driver -/

/-- The method `SanitizeURL`. The slice `ahv.URL[len(ahv.URL)-1:]` panics on
an empty URL; otherwise it is the last byte of the URL, which is `/` exactly
when the last character of the (UTF-8) URL is `/`. -/
def AHVCluster.SanitizeURL (ahv : AHVCluster) : Option AHVCluster :=
  let URI := "PrismGateway/services/rest/v2.0/"
  if ahv.URL.length = 0 then none
  else
    let url :=
      if ahv.URL.drop (ahv.URL.length - 1) = "/" then ahv.URL ++ URI
      else ahv.URL ++ "/" ++ URI
    some { ahv with URI := URI, URL := url }

/-- The method `Get`: the body and the error. -/
def AHVCluster.Get (w : World) (ahv : AHVCluster) (Obj : String) (t : Trace) :
    (String × Option String) × Trace :=
  let URL := ahv.URL ++ Obj
  match w.httpGet t URL with
  | .badRequest e => (("", some ("failed to get data from " ++ URL ++ ": " ++ e)), t)
  | .transport e =>
    (("", some ("failed to get response from " ++ URL ++ ": " ++ e)), t ++ [Event.get URL])
  | .response body => ((body, none), t ++ [Event.get URL])

/-- The method `Post`: the body, the status code and the error. -/
def AHVCluster.Post (w : World) (ahv : AHVCluster) (Obj : String) (jsonByteData : String)
    (t : Trace) : (String × Int × Option String) × Trace :=
  let URL := ahv.URL ++ Obj
  match w.httpPost t URL jsonByteData with
  | .badRequest e =>
    (("", 0, some ("failed to create new http request with payload: " ++ e)), t)
  | .transport e =>
    (("", 0, some ("failed to get data from " ++ URL ++ ": " ++ e)),
      t ++ [Event.post URL jsonByteData])
  | .response (bodyText, code) => ((bodyText, code, none), t ++ [Event.post URL jsonByteData])

/-- The method `GenerateVMClonePayload` (its `vmUUID` argument is unused). -/
def AHVCluster.GenerateVMClonePayload (ahv : AHVCluster) (p : Package) (srv : Server)
    (_vmUUID : String) : String :=
  "\x7b\n\t\t\"spec_list\": [\n\t\t\t\x7b\n\t\t\t\t\"name\": \"" ++ srv.Name ++
  "\",\n\t\t\t\t\"memory_mb\": " ++ toString p.MemoryMB ++
  ",\n\t\t\t\t\"num_vcpus\": " ++ toString p.Cpu ++
  ",\n\t\t\t\t\"num_cores_per_vcpu\": 1,\n\t\t\t\t\"vm_nics\": [\n\t\t\t\t\t\x7b\n\t\t\t\t\t\t\"adapter_type\": \"Vmxnet3\",\n\t\t\t\t\t\t\"network_uuid\": \"" ++
  ahv.NetworkUUID ++
  "\",\n\t\t\t\t\t\t\"ip_address\": \"" ++ srv.IPAddress ++
  "\"\n\t\t\t\t\t\x7d\n\t\t\t\t],\n\t\t\t\t\"request_ip\": false\n\t\t\t\x7d\n\t\t]\n\t\x7d"

/-- A Go `map[string]string` as read by `m[k]`: an absent key reads as `""`. -/
abbrev GoMap := String → String

/-- The map `make(map[string]string)`. -/
def GoMap.empty : GoMap := fun _ => ""

/-- The assignment `m[k] = v`. -/
def GoMap.set (m : GoMap) (k v : String) : GoMap := fun x => if x = k then v else m x

/-- The inner loop of `GetVMUUID`: for every `j, uuid` of the UUID list,
`if i == j` then `m[name] = uuid`. -/
def uuidLoop (vmUuidJ : List String) (i : Nat) (name : String) (m : GoMap) : GoMap :=
  vmUuidJ.enum.foldl (fun m ju => if i = ju.1 then m.set name ju.2 else m) m

/-- The nested loop of `GetVMUUID` that fills `vmNameUUidMap`. -/
def vmNameUUidMap (vmNameJ vmUuidJ : List String) : GoMap :=
  vmNameJ.enum.foldl (fun m iname => uuidLoop vmUuidJ iname.1 iname.2 m) GoMap.empty

/-- The method `GetVMUUID`: the UUID and the error. -/
def AHVCluster.GetVMUUID (w : World) (ahv : AHVCluster) (vmName : String) (t : Trace) :
    (String × Option String) × Trace :=
  match ahv.Get w "vms" t with
  | ((_, some err), t1) =>
    (("", some ("failed to get UUID of vm " ++ vmName ++ ": " ++ err)), t1)
  | ((vmData, none), t1) =>
    let vmNameJ := w.gjsonStrings vmData "entities.#.name"
    let vmUuidJ := w.gjsonStrings vmData "entities.#.uuid"
    ((vmNameUUidMap vmNameJ vmUuidJ vmName, none), t1)

/-- The method `CloneVM`: the body and the status code; the error of `Post` is dropped. -/
def AHVCluster.CloneVM (w : World) (ahv : AHVCluster) (p : Package) (srv : Server)
    (vmUuid : String) (t : Trace) : (String × Int) × Trace :=
  let cloneByteData := ahv.GenerateVMClonePayload p srv vmUuid
  let peObj := "vms/" ++ vmUuid ++ "/clone"
  let r := ahv.Post w peObj cloneByteData t
  ((r.1.1, r.1.2.1), r.2)

/-- The method `GenerateDiskPayload`. -/
def AHVCluster.GenerateDiskPayload (ahv : AHVCluster) (p : Package) : String :=
  "\x7b\n\t\t\"vm_disks\": [\n\t\t  \x7b\n\t\t\t\"disk_address\": \x7b\n\t\t\t  \"device_bus\": \"SCSI\",\n\t\t\t  \"device_index\": 1,\n\t\t\t  \"is_cdrom\": false\n\t\t\t\x7d,\n\t\t\t\"vm_disk_create\": \x7b\n\t\t\t  \"size\": " ++
  toString (wrapInt (p.AppDiskGB * 1000000000)) ++
  ",\n\t\t\t  \"storage_container_uuid\": \"" ++ ahv.StorageContainerUUID ++
  "\"\n\t\t\t\x7d\n\t\t  \x7d\n\t\t]\n\t  \x7d"

/-- The method `AttachDisk`: the body and the status code; the error of `Post` is dropped. -/
def AHVCluster.AttachDisk (w : World) (ahv : AHVCluster) (p : Package) (vmUUID : String)
    (t : Trace) : (String × Int) × Trace :=
  let diskPayload := ahv.GenerateDiskPayload p
  let peObj := "vms/" ++ vmUUID ++ "/disks/attach"
  let r := ahv.Post w peObj diskPayload t
  ((r.1.1, r.1.2.1), r.2)

/-- The method `Deploy`: the outcome, the receiver afterwards and the trace. -/
def AHVCluster.Deploy (cfg : Config) (w : World) (ahv : AHVCluster) (p : Package)
    (srv : Server) (t : Trace) : Result (Option String) × AHVCluster × Trace :=
  match cfg.ahv ahv with
  | (some err, a0) => (.ret (some err), a0, t)
  | (none, a0) =>
    match a0.SanitizeURL with
    | none => (.panic, a0, t)
    | some a1 =>
      match a1.GetVMUUID w a1.Template t with
      | ((_, some err), t1) => (.ret (some err), a1, t1)
      | ((templateUuid, none), t1) =>
        match a1.CloneVM w p srv templateUuid t1 with
        | ((_, code), t2) =>
          if code ≥ 200 ∧ code ≤ 299 then
            let t3 := t2 ++ [Event.sleep 30]
            match a1.GetVMUUID w srv.Name t3 with
            | ((_, some err), t4) => (.ret (some err), a1, t4)
            | ((srvUUID, none), t4) =>
              match a1.AttachDisk w p srvUUID t4 with
              | ((_, code2), t5) =>
                if code2 ≥ 200 ∧ code2 ≤ 299 then (.ret none, a1, t5)
                else (.exit 1, a1, t5)
          else (.exit 1, a1, t2)

/-! ## The deploy command -/

/-- The loop of `setupEnviornment` over `envMap`, returning at the first
`os.Setenv` error. Go ranges over a map in an unspecified order; the keys are
distinct, so the environment reached without an error does not depend on it. -/
def setenvAll (w : World) : List (String × String) → Environ → Option String × Environ
  | [], env => (none, env)
  | (k, v) :: rest, env =>
    match w.setenvErr k v with
    | some err => (some err, env)
    | none => setenvAll w rest (fun x => if x = k then v else env x)

/-- The function `setupEnviornment`: the error and the environment afterwards. -/
def setupEnviornment (cfg : Config) (w : World) (env : Environ) : Option String × Environ :=
  match cfg.vcenter with
  | .error err => (some err, env)
  | .ok vc =>
    setenvAll w
      [("GOVC_URL", vc.Url),
       ("GOVC_USERNAME", vc.Username),
       ("GOVC_PASSWORD", vc.Password),
       ("GOVC_TEMPLATE", vc.Template),
       ("GOVC_DATASTORE", vc.Datastore),
       ("GOVC_NETWORK", vc.Network),
       ("GOVC_RESOURCE_POOL", vc.ResourcePool),
       ("GOVC_INSECURE", "true"),
       ("GOVC_DATACENTER", vc.Datacenter)]
      env

/-- A driver: `func(*Package, *Server) error` over the driver state `σ`. -/
abbrev Driver (σ : Type) := Package → Server → σ → Trace → Result (Option String) × σ × Trace

/-- The body of the loop of `deployInfra` for one server. An error of the
small tier exits with status 1; an error of the medium or large tier is
printed and the loop goes on. -/
def deployServer {σ : Type} (flags : Flags) (deploy : Driver σ) (srv : Server) (s : σ)
    (t : Trace) : Result Unit × σ × Trace :=
  let r1 : Result Unit × σ × Trace :=
    if flags.small then
      match deploy smallPackage srv s t with
      | (.ret (some _), s1, t1) => (.exit 1, s1, t1)
      | (.ret none, s1, t1) => (.ret (), s1, t1)
      | (.exit c, s1, t1) => (.exit c, s1, t1)
      | (.panic, s1, t1) => (.panic, s1, t1)
    else (.ret (), s, t)
  match r1 with
  | (.exit c, s1, t1) => (.exit c, s1, t1)
  | (.panic, s1, t1) => (.panic, s1, t1)
  | (.ret (), s1, t1) =>
    let r2 : Result Unit × σ × Trace :=
      if flags.medium then
        match deploy mediumPackage srv s1 t1 with
        | (.ret _, s2, t2) => (.ret (), s2, t2)
        | (.exit c, s2, t2) => (.exit c, s2, t2)
        | (.panic, s2, t2) => (.panic, s2, t2)
      else (.ret (), s1, t1)
    match r2 with
    | (.exit c, s2, t2) => (.exit c, s2, t2)
    | (.panic, s2, t2) => (.panic, s2, t2)
    | (.ret (), s2, t2) =>
      if flags.large then
        match deploy largePackage srv s2 t2 with
        | (.ret _, s3, t3) => (.ret (), s3, t3)
        | (.exit c, s3, t3) => (.exit c, s3, t3)
        | (.panic, s3, t3) => (.panic, s3, t3)
      else (.ret (), s2, t2)

/-- The loop `for _, srv := range srvs` of `deployInfra`. -/
def deployServers {σ : Type} (flags : Flags) (deploy : Driver σ) :
    List Server → σ → Trace → Result Unit × σ × Trace
  | [], s, t => (.ret (), s, t)
  | srv :: rest, s, t =>
    match deployServer flags deploy srv s t with
    | (.ret (), s1, t1) => deployServers flags deploy rest s1 t1
    | (.exit c, s1, t1) => (.exit c, s1, t1)
    | (.panic, s1, t1) => (.panic, s1, t1)

/-- The function `deployInfra`. -/
def deployInfra {σ : Type} (flags : Flags) (cfg : Config) (deploy : Driver σ) (s : σ)
    (t : Trace) : Result Unit × σ × Trace :=
  match cfg.servers with
  | .error _ => (.exit 1, s, t)
  | .ok srvs => deployServers flags deploy srvs s t

/-- The function `deployPackage` as a driver: it keeps no state and always returns. -/
def deployPackageDriver (w : World) (env : Environ) : Driver Unit :=
  fun p srv s t => (.ret (deployPackage w env p srv t).1, s, (deployPackage w env p srv t).2)

/-- The zero value `AHVCluster{}`. -/
def AHVCluster.zero : AHVCluster :=
  { URL := "", Username := "", Password := "", Template := "", NetworkUUID := "",
    StorageContainerUUID := "", VolumeGroup := "", Insecure := false, URI := "" }

/-- The method value `ahv.Deploy` as a driver: the receiver is the driver state. -/
def ahvDriver (cfg : Config) (w : World) : Driver AHVCluster :=
  fun p srv ahv t => AHVCluster.Deploy cfg w ahv p srv t

/-- The `Run` function of `deployCmd`, started in the process environment
`env`: the outcome and the trace of the whole command. -/
def deployCmdRun (flags : Flags) (cfg : Config) (w : World) (env : Environ) :
    Result Unit × Trace :=
  match checkFlags flags with
  | some _ => (.exit 1, [])
  | none =>
    let platform := checkPlatform cfg
    if platform = VSPHERE then
      match setupEnviornment cfg w env with
      | (some _, _) => (.exit 1, [])
      | (none, env1) =>
        let r := deployInfra flags cfg (deployPackageDriver w env1) () []
        (r.1, r.2.2)
    else if platform = AHV then
      let r := deployInfra flags cfg (ahvDriver cfg w) AHVCluster.zero []
      (r.1, r.2.2)
    else if platform ≠ AHV ∧ platform ≠ VSPHERE then (.exit 1, [])
    else (.ret (), [])

/-- The exit status of the process for an outcome of `Run`: 0 when `Run`
returns (the command then reports no error), the argument of `os.Exit`, and 2
for an unrecovered panic. -/
def exitCode : Result Unit → Int
  | .ret () => 0
  | .exit c => c
  | .panic => 2

/-! ## Specification-side vocabulary for the govc pipeline -/

/-- The five argument lists handed to the tool by a full run of `deployPackage`, in order. -/
def pipeline (env : Environ) (p : Package) (host : Server) : List (List String) :=
  [cloneVMArgs env p host, createVMDiskArgs p host, setNicStartConnectedArgs host,
   setIPAddressArgs host, powerOnArgs host]

/-- The error texts of the five steps, in order. -/
def stepErrors (host : Server) : List String :=
  ["failed to create virtual machine " ++ host.Name,
   "failed to create disk for virtual machine " ++ host.Name,
   "failed to set vmxnet3 adapter to start connected on virtual machine " ++ host.Name,
   "failed to set ip address of " ++ host.Name,
   "failed to power on " ++ host.Name]

/-- The exit status the tool gives to step `k` (from 0) when the steps before
it have been invoked, starting from trace `t`. -/
def stepStatus (w : World) (env : Environ) (p : Package) (host : Server) (t : Trace)
    (k : Nat) : Int :=
  w.govc (t ++ ((pipeline env p host).take k).map Event.govc)
    ((pipeline env p host).getD k [])

/-- The first step whose exit status is not zero, if any. -/
def firstFailure (w : World) (env : Environ) (p : Package) (host : Server) (t : Trace) :
    Option Nat :=
  (List.range 5).find? (fun k => decide (stepStatus w env p host t k ≠ 0))

/-! ## Concrete scenarios -/

/-- The `ahv` section of the example configuration. -/
def exAhv : AHVCluster :=
  { URL := "https://prism:9440", Username := "admin", Password := "secret",
    Template := "tmpl-base", NetworkUUID := "net-1", StorageContainerUUID := "sc-1",
    VolumeGroup := "", Insecure := true, URI := "" }

/-- The host of the end-to-end scenarios. -/
def exServer : Server :=
  { Name := "splunk01", IPAddress := "10.0.0.5", Netmask := "255.255.255.0",
    Gateway := "10.0.0.1" }

/-- A configuration with only the `ahv` section and one host. -/
def exConfig : Config :=
  { hasAhv := true, hasVcenter := false, vcenter := .error "vcenter section missing",
    ahv := fun _ => (none, exAhv), servers := .ok [exServer] }

/-- A cluster that lists the template before the first POST and the template
and the new host afterwards, and answers the clone POST and the disk POST with
the given status codes. -/
def exWorld (cloneCode attachCode : Int) : World :=
  { govc := fun _ _ => 0
    httpGet := fun t _ => .response (if t.length = 0 then "before" else "after")
    httpPost := fun t _ _ => .response ("", if t.length ≤ 1 then cloneCode else attachCode)
    gjsonStrings := fun body path =>
      if path = "entities.#.name" then
        (if body = "before" then ["tmpl-base"] else ["tmpl-base", "splunk01"])
      else
        (if body = "before" then ["uuid-A"] else ["uuid-A", "uuid-B"])
    setenvErr := fun _ _ => none }

/-- The once-sanitized cluster of the examples. -/
def exAhvSanitized : AHVCluster :=
  { exAhv with URL := "https://prism:9440/PrismGateway/services/rest/v2.0/",
               URI := "PrismGateway/services/rest/v2.0/" }

/-- The trace of the successful end-to-end scenario. -/
def exTrace : Trace :=
  [Event.get "https://prism:9440/PrismGateway/services/rest/v2.0/vms",
   Event.post "https://prism:9440/PrismGateway/services/rest/v2.0/vms/uuid-A/clone"
     "\x7b\n\t\t\"spec_list\": [\n\t\t\t\x7b\n\t\t\t\t\"name\": \"splunk01\",\n\t\t\t\t\"memory_mb\": 8096,\n\t\t\t\t\"num_vcpus\": 2,\n\t\t\t\t\"num_cores_per_vcpu\": 1,\n\t\t\t\t\"vm_nics\": [\n\t\t\t\t\t\x7b\n\t\t\t\t\t\t\"adapter_type\": \"Vmxnet3\",\n\t\t\t\t\t\t\"network_uuid\": \"net-1\",\n\t\t\t\t\t\t\"ip_address\": \"10.0.0.5\"\n\t\t\t\t\t\x7d\n\t\t\t\t],\n\t\t\t\t\"request_ip\": false\n\t\t\t\x7d\n\t\t]\n\t\x7d",
   Event.sleep 30,
   Event.get "https://prism:9440/PrismGateway/services/rest/v2.0/vms",
   Event.post "https://prism:9440/PrismGateway/services/rest/v2.0/vms/uuid-B/disks/attach"
     "\x7b\n\t\t\"vm_disks\": [\n\t\t  \x7b\n\t\t\t\"disk_address\": \x7b\n\t\t\t  \"device_bus\": \"SCSI\",\n\t\t\t  \"device_index\": 1,\n\t\t\t  \"is_cdrom\": false\n\t\t\t\x7d,\n\t\t\t\"vm_disk_create\": \x7b\n\t\t\t  \"size\": 10000000000,\n\t\t\t  \"storage_container_uuid\": \"sc-1\"\n\t\t\t\x7d\n\t\t  \x7d\n\t\t]\n\t  \x7d"]

/-- A listing in which the name `vm-a` occurs at positions 0 and 1. -/
def dupWorld : World :=
  { govc := fun _ _ => 0
    httpGet := fun _ _ => .response "dup"
    httpPost := fun _ _ _ => .response ("", 202)
    gjsonStrings := fun _ path =>
      if path = "entities.#.name" then ["vm-a", "vm-a"] else ["uuid-1", "uuid-2"]
    setenvErr := fun _ _ => none }

/-- The example configuration with a template name that no listing contains. -/
def exConfigMissing : Config :=
  { exConfig with ahv := fun _ => (none, { exAhv with Template := "no-such-template" }) }

/-- A configuration with only the `vcenter` section and one host. -/
def exVcConfig : Config :=
  { hasAhv := false, hasVcenter := true,
    vcenter := .ok { Url := "https://vcenter/sdk", Username := "admin", Password := "secret",
                     Template := "tmpl-base", Datastore := "ds-1", Network := "net-1",
                     ResourcePool := "pool-1", Datacenter := "dc-1" },
    ahv := fun a => (some "ahv section missing", a), servers := .ok [exServer] }

/-- A tool whose every invocation ends with exit status 1. -/
def failingTool : World :=
  { govc := fun _ _ => 1
    httpGet := fun _ _ => .transport "connection refused"
    httpPost := fun _ _ _ => .transport "connection refused"
    gjsonStrings := fun _ _ => []
    setenvErr := fun _ _ => none }

/-- A tool that fails exactly on `device.connect`. -/
def nicFailingTool : World :=
  { failingTool with govc := fun _ args => if args.head? = some "device.connect" then 1 else 0 }

/-- The empty process environment. -/
def emptyEnviron : Environ := fun _ => ""

/-- The `vm.clone` invocation of the vSphere scenario. -/
def exCloneArgs (p : Package) : List String :=
  ["vm.clone", "-vm", "tmpl-base", "-on=false", "-c=" ++ toString p.Cpu,
   "-m=" ++ toString p.MemoryMB, "-net=net-1", "-net.adapter=vmxnet3", "splunk01"]

/-- The process environment after `setupEnviornment` on `exVcConfig`. -/
def exVcEnviron : Environ :=
  (setupEnviornment exVcConfig failingTool emptyEnviron).2

/-! ## Helper lemmas -/

theorem length_eq_zero_iff (s : String) : s.length = 0 ↔ s = "" := by
  cases s with
  | mk d =>
    show d.length = 0 ↔ _
    constructor
    · intro h
      have : d = [] := List.length_eq_zero.mp h
      subst this
      rfl
    · intro h
      have : d = [] := congrArg String.data h
      subst this
      rfl

/-- The last character of a string that ends in `/` is `/`. -/
theorem drop_last_append_slash (s : String) :
    (s ++ "/").drop ((s ++ "/").length - 1) = "/" := by
  cases s with
  | mk d =>
    rw [String.drop_eq]
    apply String.ext
    show List.drop ((d ++ ['/']).length - 1) (d ++ ['/']) = ['/']
    rw [List.length_append]
    show List.drop (d.length + 1 - 1) (d ++ ['/']) = ['/']
    rw [Nat.add_sub_cancel]
    exact List.drop_left d ['/']

/-- Appending a non-empty string changes a string. -/
theorem append_ne_self (s r : String) (h : r ≠ "") : s ++ r ≠ s := by
  intro he
  have hl := congrArg String.length he
  rw [String.length_append] at hl
  have : r.length = 0 := by omega
  exact h ((length_eq_zero_iff r).mp this)

/-- The API root appended by `SanitizeURL`. -/
theorem root_ends_in_slash (s : String) :
    s ++ "PrismGateway/services/rest/v2.0/" = (s ++ "PrismGateway/services/rest/v2.0") ++ "/" := by
  rw [String.append_assoc]
  rfl

/-- The result of `SanitizeURL` on a non-empty URL. -/
theorem SanitizeURL_of_ne (ahv : AHVCluster) (h : ahv.URL ≠ "") :
    ahv.SanitizeURL = some { ahv with
      URI := "PrismGateway/services/rest/v2.0/",
      URL := ahv.URL ++ (if ahv.URL.drop (ahv.URL.length - 1) = "/" then "" else "/") ++
        "PrismGateway/services/rest/v2.0/" } := by
  have hlen : ¬ ahv.URL.length = 0 := fun h0 => h ((length_eq_zero_iff _).mp h0)
  unfold AHVCluster.SanitizeURL
  by_cases hs : ahv.URL.drop (ahv.URL.length - 1) = "/"
  · simp only [hlen, hs, if_true, if_false, String.append_empty]
  · simp only [hlen, hs, if_false]

/-- A URL followed by the API root is not empty. -/
theorem append_root_ne_empty (s : String) : s ++ "PrismGateway/services/rest/v2.0/" ≠ "" := by
  intro he
  have hl := congrArg String.length he
  rw [String.length_append] at hl
  have h32 : "PrismGateway/services/rest/v2.0/".length = 32 := by decide
  have h0 : "".length = 0 := by decide
  omega

/-- A URL followed by the API root ends in `/`. -/
theorem drop_last_append_root (s : String) :
    (s ++ "PrismGateway/services/rest/v2.0/").drop
      ((s ++ "PrismGateway/services/rest/v2.0/").length - 1) = "/" := by
  rw [root_ends_in_slash]
  exact drop_last_append_slash _

/-- The inner loop over a tail of the UUID list that starts at index `s`. -/
theorem uuidLoop_enumFrom (us : List String) (i : Nat) (name : String) :
    ∀ (s : Nat) (m : GoMap),
      (us.enumFrom s).foldl (fun m ju => if i = ju.1 then m.set name ju.2 else m) m =
        if s ≤ i then (match us[i - s]? with
          | some u => m.set name u
          | none => m) else m := by
  induction us with
  | nil => intro s m; simp
  | cons u us ih =>
    intro s m
    simp only [List.enumFrom_cons, List.foldl_cons]
    rw [ih (s + 1)]
    by_cases h1 : i = s
    · subst h1
      simp
    · by_cases h2 : s ≤ i
      · have h3 : s + 1 ≤ i := by omega
        have h4 : i - s = (i - (s + 1)) + 1 := by omega
        simp only [h1, h2, h3, if_true, if_false]
        rw [h4, List.getElem?_cons_succ]
      · have h3 : ¬ s + 1 ≤ i := by omega
        simp [h1, h2, h3]

/-- The inner loop assigns the UUID at index `i`, if there is one. -/
theorem uuidLoop_eq (us : List String) (i : Nat) (name : String) (m : GoMap) :
    uuidLoop us i name m = match us[i]? with
      | some u => m.set name u
      | none => m := by
  unfold uuidLoop List.enum
  rw [uuidLoop_enumFrom]
  simp

/-- Names that are not assigned leave a key untouched. -/
theorem nameLoop_not_mem (us : List String) (k : String) :
    ∀ (ns : List String) (s : Nat) (m : GoMap), k ∉ ns →
      (ns.enumFrom s).foldl (fun m iname => uuidLoop us iname.1 iname.2 m) m k = m k := by
  intro ns
  induction ns with
  | nil => intro s m _; rfl
  | cons n ns ih =>
    intro s m hk
    simp only [List.enumFrom_cons, List.foldl_cons]
    rw [ih (s + 1) _ (fun h => hk (List.mem_cons_of_mem _ h)), uuidLoop_eq]
    have hne : k ≠ n := fun h => hk (h ▸ List.mem_cons_self _ _)
    cases us[s]? with
    | none => rfl
    | some u => simp [GoMap.set, hne]

/-- The map built by `GetVMUUID` reads as `""` at a name that is not listed. -/
theorem vmNameUUidMap_not_mem (ns us : List String) (k : String) (hk : k ∉ ns) :
    vmNameUUidMap ns us k = "" := by
  unfold vmNameUUidMap List.enum
  rw [nameLoop_not_mem us k ns 0 _ hk]
  rfl

/-- The map built by `GetVMUUID` reads, at a name with no later occurrence,
the UUID at the position of that name. -/
theorem vmNameUUidMap_last (pre post us : List String) (k u : String)
    (hu : us[pre.length]? = some u) (hk : k ∉ post) :
    vmNameUUidMap (pre ++ k :: post) us k = u := by
  unfold vmNameUUidMap List.enum
  rw [List.enumFrom_append, List.foldl_append]
  simp only [List.enumFrom_cons, List.foldl_cons, Nat.zero_add]
  rw [nameLoop_not_mem us k post _ _ hk, uuidLoop_eq, hu]
  simp [GoMap.set]

/-- A call of `GetVMUUID` that returns no error has made exactly one GET. -/
theorem GetVMUUID_of_ok (w : World) (a : AHVCluster) (n u : String) (t : Trace)
    (h : (a.GetVMUUID w n t).1 = (u, none)) :
    a.GetVMUUID w n t = ((u, none), t ++ [Event.get (a.URL ++ "vms")]) := by
  unfold AHVCluster.GetVMUUID AHVCluster.Get at h ⊢
  cases hg : w.httpGet t (a.URL ++ "vms") with
  | badRequest e => simp [hg] at h
  | transport e => simp [hg] at h
  | response body =>
    simp only [hg] at h ⊢
    simp only [Prod.mk.injEq, and_true] at h
    simp [h]

/-- The result of `CloneVM` when the POST is answered. -/
theorem CloneVM_of_response (w : World) (a : AHVCluster) (p : Package) (srv : Server)
    (T : String) (t : Trace) (r : String) (c : Int)
    (h : w.httpPost t (a.URL ++ ("vms/" ++ T ++ "/clone")) (a.GenerateVMClonePayload p srv T) =
      .response (r, c)) :
    a.CloneVM w p srv T t =
      ((r, c), t ++ [Event.post (a.URL ++ ("vms/" ++ T ++ "/clone"))
        (a.GenerateVMClonePayload p srv T)]) := by
  simp [AHVCluster.CloneVM, AHVCluster.Post, h]

/-- The result of `CloneVM` when the POST fails at transport level: status 0. -/
theorem CloneVM_of_transport (w : World) (a : AHVCluster) (p : Package) (srv : Server)
    (T : String) (t : Trace) (e : String)
    (h : w.httpPost t (a.URL ++ ("vms/" ++ T ++ "/clone")) (a.GenerateVMClonePayload p srv T) =
      .transport e) :
    a.CloneVM w p srv T t =
      (("", 0), t ++ [Event.post (a.URL ++ ("vms/" ++ T ++ "/clone"))
        (a.GenerateVMClonePayload p srv T)]) := by
  simp [AHVCluster.CloneVM, AHVCluster.Post, h]

/-- The result of `AttachDisk` when the POST is answered. -/
theorem AttachDisk_of_response (w : World) (a : AHVCluster) (p : Package)
    (U : String) (t : Trace) (r : String) (c : Int)
    (h : w.httpPost t (a.URL ++ ("vms/" ++ U ++ "/disks/attach")) (a.GenerateDiskPayload p) =
      .response (r, c)) :
    a.AttachDisk w p U t =
      ((r, c), t ++ [Event.post (a.URL ++ ("vms/" ++ U ++ "/disks/attach"))
        (a.GenerateDiskPayload p)]) := by
  simp [AHVCluster.AttachDisk, AHVCluster.Post, h]

/-- The result of `AttachDisk` when the POST fails at transport level: status 0. -/
theorem AttachDisk_of_transport (w : World) (a : AHVCluster) (p : Package)
    (U : String) (t : Trace) (e : String)
    (h : w.httpPost t (a.URL ++ ("vms/" ++ U ++ "/disks/attach")) (a.GenerateDiskPayload p) =
      .transport e) :
    a.AttachDisk w p U t =
      (("", 0), t ++ [Event.post (a.URL ++ ("vms/" ++ U ++ "/disks/attach"))
        (a.GenerateDiskPayload p)]) := by
  simp [AHVCluster.AttachDisk, AHVCluster.Post, h]

/-- What `Deploy` does once the configuration is loaded, the URL derived, the
template resolved and the clone POST answered. -/
theorem Deploy_after_clone (cfg : Config) (w : World) (ahv a0 a1 : AHVCluster) (p : Package)
    (srv : Server) (t t1 t2 : Trace) (T resp : String) (c : Int)
    (h0 : cfg.ahv ahv = (none, a0)) (h1 : a0.SanitizeURL = some a1)
    (h2 : a1.GetVMUUID w a1.Template t = ((T, none), t1))
    (h3 : a1.CloneVM w p srv T t1 = ((resp, c), t2)) :
    AHVCluster.Deploy cfg w ahv p srv t =
      if c ≥ 200 ∧ c ≤ 299 then
        match a1.GetVMUUID w srv.Name (t2 ++ [Event.sleep 30]) with
        | ((_, some err), t4) => (.ret (some err), a1, t4)
        | ((srvUUID, none), t4) =>
          match a1.AttachDisk w p srvUUID t4 with
          | ((_, code2), t5) =>
            if code2 ≥ 200 ∧ code2 ≤ 299 then (.ret none, a1, t5)
            else (.exit 1, a1, t5)
      else (.exit 1, a1, t2) := by
  unfold AHVCluster.Deploy
  simp only [h0, h1, h2, h3]

/-- The method `GetVMUUID` only appends to the trace. -/
theorem GetVMUUID_trace_extends (w : World) (a : AHVCluster) (n : String) (t : Trace) :
    ∃ rest, (a.GetVMUUID w n t).2 = t ++ rest := by
  unfold AHVCluster.GetVMUUID AHVCluster.Get
  cases hg : w.httpGet t (a.URL ++ "vms") with
  | badRequest e => exact ⟨[], by simp [hg]⟩
  | transport e => exact ⟨[Event.get (a.URL ++ "vms")], by simp [hg]⟩
  | response body => exact ⟨[Event.get (a.URL ++ "vms")], by simp [hg]⟩

/-- The method `AttachDisk` only appends to the trace. -/
theorem AttachDisk_trace_extends (w : World) (a : AHVCluster) (p : Package) (U : String)
    (t : Trace) : ∃ rest, (a.AttachDisk w p U t).2 = t ++ rest := by
  unfold AHVCluster.AttachDisk AHVCluster.Post
  cases hg : w.httpPost t (a.URL ++ ("vms/" ++ U ++ "/disks/attach"))
      (a.GenerateDiskPayload p) with
  | badRequest e => exact ⟨[], by simp [hg]⟩
  | transport e =>
    exact ⟨[Event.post (a.URL ++ ("vms/" ++ U ++ "/disks/attach")) (a.GenerateDiskPayload p)],
      by simp [hg]⟩
  | response body =>
    exact ⟨[Event.post (a.URL ++ ("vms/" ++ U ++ "/disks/attach")) (a.GenerateDiskPayload p)],
      by simp [hg]⟩

/-- No wrap-around happens inside the 64-bit range. -/
theorem wrapInt_of_inRange (x : Int) (h : -(2 : Int) ^ 63 ≤ x ∧ x < 2 ^ 63) : wrapInt x = x := by
  unfold wrapInt
  rw [Int.emod_eq_of_lt] <;> omega

/-- For a name that the listing does not contain, `GetVMUUID` returns the
empty UUID and a nil error. -/
theorem GetVMUUID_absent_name (w : World) (a : AHVCluster) (n body : String) (t : Trace)
    (hget : w.httpGet t (a.URL ++ "vms") = .response body)
    (hn : n ∉ w.gjsonStrings body "entities.#.name") :
    a.GetVMUUID w n t = (("", none), t ++ [Event.get (a.URL ++ "vms")]) := by
  unfold AHVCluster.GetVMUUID AHVCluster.Get
  simp only [hget]
  rw [vmNameUUidMap_not_mem _ _ _ hn]

/-- The function `deployPackage` runs the pipeline up to the first failure. -/
theorem deployPackage_pipeline (w : World) (env : Environ) (p : Package) (host : Server)
    (t : Trace) :
    deployPackage w env p host t =
      (match firstFailure w env p host t with
       | some k => (some ((stepErrors host).getD k ""),
                    t ++ ((pipeline env p host).take (k + 1)).map Event.govc)
       | none => (none, t ++ (pipeline env p host).map Event.govc)) := by
  have hr : List.range 5 = [0, 1, 2, 3, 4] := by decide
  unfold firstFailure
  rw [hr]
  unfold deployPackage cloneVM createVMDisk setNicStartConnected setIPAddress powerOn runGOVC
  simp only [List.find?, stepStatus, pipeline, stepErrors]
  by_cases h0 : w.govc t (cloneVMArgs env p host) = 0
  · by_cases h1 : w.govc (t ++ [Event.govc (cloneVMArgs env p host)]) (createVMDiskArgs p host) = 0
    · by_cases h2 : w.govc (t ++ [Event.govc (cloneVMArgs env p host),
          Event.govc (createVMDiskArgs p host)]) (setNicStartConnectedArgs host) = 0
      · by_cases h3 : w.govc (t ++ [Event.govc (cloneVMArgs env p host),
            Event.govc (createVMDiskArgs p host),
            Event.govc (setNicStartConnectedArgs host)]) (setIPAddressArgs host) = 0
        · by_cases h4 : w.govc (t ++ [Event.govc (cloneVMArgs env p host),
              Event.govc (createVMDiskArgs p host),
              Event.govc (setNicStartConnectedArgs host),
              Event.govc (setIPAddressArgs host)]) (powerOnArgs host) = 0
          · simp [h0, h1, h2, h3, h4]
          · simp [h0, h1, h2, h3, h4]
        · simp [h0, h1, h2, h3]
      · simp [h0, h1, h2]
    · simp [h0, h1]
  · simp [h0]

/-! ## Theorems -/

/-- C1: over all eight combinations of the three sizing flags, `checkFlags`
returns no error exactly when exactly one flag is set, and returns an error
exactly when the number of set flags is zero, two or three. -/
theorem checkFlags_none_iff_exactly_one (f : Flags) :
    (checkFlags f = none ↔ f.small.toNat + f.medium.toNat + f.large.toNat = 1) ∧
    ((checkFlags f).isSome = true ↔ f.small.toNat + f.medium.toNat + f.large.toNat ≠ 1) := by
  rcases f with ⟨_ | _, _ | _, _ | _⟩ <;> decide

/-- C2, as stated, fails: with both the `ahv` and the `vcenter` section
present `checkPlatform` returns `AHV`, not the unknown tag, and the deploy
command goes on to run the AHV driver (here through a whole successful
deployment). -/
theorem checkPlatform_both_sections :
    ({ exConfig with hasVcenter := true } : Config).hasAhv = true ∧
    ({ exConfig with hasVcenter := true } : Config).hasVcenter = true ∧
    checkPlatform { exConfig with hasVcenter := true } = AHV ∧
    checkPlatform { exConfig with hasVcenter := true } ≠ "" ∧
    deployCmdRun ⟨true, false, false⟩ { exConfig with hasVcenter := true } (exWorld 202 202)
      emptyEnviron = (.ret (), exTrace) := by
  decide

/-- C2, amended: `checkPlatform` returns `AHV` whenever the `ahv` section is
present (with or without the `vcenter` section), `VSPHERE` when only the
`vcenter` section is present, and the unknown tag `""` when neither is
present; in that last case the deploy command exits with status 1 and an empty
trace, whatever the flags and the collaborators. The three tags are distinct. -/
theorem checkPlatform_selection (cfg : Config) :
    (cfg.hasAhv = true → checkPlatform cfg = AHV) ∧
    (cfg.hasAhv = false → cfg.hasVcenter = true → checkPlatform cfg = VSPHERE) ∧
    (cfg.hasAhv = false → cfg.hasVcenter = false →
      checkPlatform cfg = "" ∧
      ∀ (flags : Flags) (w : World) (env : Environ),
        deployCmdRun flags cfg w env = (.exit 1, [])) ∧
    AHV ≠ "" ∧ VSPHERE ≠ "" ∧ AHV ≠ VSPHERE := by
  refine ⟨?_, ?_, ?_, by decide, by decide, by decide⟩
  · intro h
    simp [checkPlatform, h]
  · intro h1 h2
    simp [checkPlatform, h1, h2]
  · intro h1 h2
    have hp : checkPlatform cfg = "" := by simp [checkPlatform, h1, h2]
    refine ⟨hp, ?_⟩
    intro flags w env
    unfold deployCmdRun
    cases checkFlags flags with
    | some e => rfl
    | none =>
      simp only [hp]
      have hv : ¬ ("" = VSPHERE) := by decide
      have ha : ¬ ("" = AHV) := by decide
      simp [hv, ha]

/-- C2, amended, at three configurations: both sections, only `vcenter`, and
neither section. -/
theorem checkPlatform_selection_witness :
    checkPlatform { exConfig with hasVcenter := true } = AHV ∧
    checkPlatform exVcConfig = VSPHERE ∧
    (checkPlatform { exConfig with hasAhv := false } = "" ∧
      ∀ (flags : Flags) (w : World) (env : Environ),
        deployCmdRun flags { exConfig with hasAhv := false } w env = (.exit 1, [])) :=
  ⟨(checkPlatform_selection { exConfig with hasVcenter := true }).1 rfl,
   (checkPlatform_selection exVcConfig).2.1 rfl rfl,
   (checkPlatform_selection { exConfig with hasAhv := false }).2.2.1 rfl rfl⟩

/-- C3, as stated, fails: in a listing whose positions 0 and 1 both carry the
name `vm-a`, resolving the name at position 0 returns the UUID at position 1. -/
theorem GetVMUUID_duplicate_name :
    dupWorld.httpGet [] (exAhvSanitized.URL ++ "vms") = .response "dup" ∧
    dupWorld.gjsonStrings "dup" "entities.#.name" =
      [("vm-a", "uuid-1"), ("vm-a", "uuid-2")].map Prod.fst ∧
    dupWorld.gjsonStrings "dup" "entities.#.uuid" =
      [("vm-a", "uuid-1"), ("vm-a", "uuid-2")].map Prod.snd ∧
    (exAhvSanitized.GetVMUUID dupWorld "vm-a" []).1 = ("uuid-2", none) ∧
    (exAhvSanitized.GetVMUUID dupWorld "vm-a" []).1.1 ≠ "uuid-1" := by
  decide

/-- C3, amended: when the GET of `vms` answers with a body whose name query
and UUID query yield the two components of `N` name/UUID entries, then for
every position `i < N` whose name does not occur at a later position,
`GetVMUUID` applied to the name at position `i` returns the UUID at position
`i` with no error, after exactly one GET. -/
theorem GetVMUUID_resolves_position (w : World) (a : AHVCluster) (t : Trace) (body : String)
    (entries : List (String × String)) (i : Nat) (hi : i < entries.length)
    (hget : w.httpGet t (a.URL ++ "vms") = .response body)
    (hn : w.gjsonStrings body "entities.#.name" = entries.map Prod.fst)
    (hu : w.gjsonStrings body "entities.#.uuid" = entries.map Prod.snd)
    (hlast : entries[i].1 ∉ (entries.drop (i + 1)).map Prod.fst) :
    a.GetVMUUID w entries[i].1 t = ((entries[i].2, none), t ++ [Event.get (a.URL ++ "vms")]) := by
  unfold AHVCluster.GetVMUUID AHVCluster.Get
  simp only [hget, hn, hu]
  have hsplit0 : entries.take i ++ entries[i] :: entries.drop (i + 1) = entries := by
    rw [List.getElem_cons_drop _ _ hi, List.take_append_drop]
  have hsplit : (entries.take i).map Prod.fst ++
      entries[i].1 :: (entries.drop (i + 1)).map Prod.fst = entries.map Prod.fst := by
    rw [← List.map_cons Prod.fst, ← List.map_append, hsplit0]
  have hlen : ((entries.take i).map Prod.fst).length = i := by
    rw [List.length_map, List.length_take]
    omega
  have hget2 : (entries.map Prod.snd)[((entries.take i).map Prod.fst).length]? =
      some entries[i].2 := by
    rw [hlen, List.getElem?_map, List.getElem?_eq_getElem hi]
    rfl
  rw [← hsplit, vmNameUUidMap_last _ _ _ _ _ hget2 hlast]

/-- C3, amended, in the listing after the clone: `splunk01` at position 1
resolves to `uuid-B`. -/
theorem GetVMUUID_resolves_position_witness :
    exAhvSanitized.GetVMUUID (exWorld 202 202) "splunk01" (exTrace.take 3) =
      (("uuid-B", none), exTrace.take 4) :=
  (GetVMUUID_resolves_position (exWorld 202 202) exAhvSanitized (exTrace.take 3) "after"
    [("tmpl-base", "uuid-A"), ("splunk01", "uuid-B")] 1 (by decide) (by decide) (by decide)
    (by decide) (by decide)).trans (by decide)

/-- C4 at a failing input: the template name `no-such-template` is not in the
listing, yet `GetVMUUID` returns the empty UUID with a nil error, and `Deploy`
goes on to POST the clone request to `vms//clone` (answered 404 here, which
ends the process). -/
theorem Deploy_absent_template_posts_clone :
    "no-such-template" ∉ (exWorld 404 202).gjsonStrings "before" "entities.#.name" ∧
    AHVCluster.GetVMUUID (exWorld 404 202)
      { exAhvSanitized with Template := "no-such-template" } "no-such-template" [] =
      (("", none), [Event.get "https://prism:9440/PrismGateway/services/rest/v2.0/vms"]) ∧
    AHVCluster.Deploy exConfigMissing (exWorld 404 202) AHVCluster.zero smallPackage exServer [] =
      (.exit 1, { exAhvSanitized with Template := "no-such-template" },
        [Event.get "https://prism:9440/PrismGateway/services/rest/v2.0/vms",
         Event.post "https://prism:9440/PrismGateway/services/rest/v2.0/vms//clone"
           (exAhvSanitized.GenerateVMClonePayload smallPackage exServer "")]) := by
  decide

/-- C5: for every package, host, environment and tool, `deployPackage` invokes
the tool on the argument lists of `vm.clone`, `vm.disk.create`,
`device.connect`, `vm.customize`, `vm.power` in that order and stops at the
first invocation whose status is not zero: the trace then ends with that
invocation and the returned error is the text of that step, which ends in the
host name and differs from the texts of the other steps. When no status is
non-zero, all five invocations are made and no error is returned. -/
theorem deployPackage_fail_fast (w : World) (env : Environ) (p : Package) (host : Server)
    (t : Trace) :
    deployPackage w env p host t =
      (match firstFailure w env p host t with
       | some k => (some ((stepErrors host).getD k ""),
                    t ++ ((pipeline env p host).take (k + 1)).map Event.govc)
       | none => (none, t ++ (pipeline env p host).map Event.govc)) ∧
    (pipeline env p host).map List.head? =
      [some "vm.clone", some "vm.disk.create", some "device.connect", some "vm.customize",
       some "vm.power"] ∧
    (∀ e ∈ stepErrors host, ∃ pre : String, e = pre ++ host.Name) ∧
    (stepErrors host).Nodup := by
  refine ⟨deployPackage_pipeline w env p host t, rfl, ?_, ?_⟩
  · intro e he
    simp only [stepErrors, List.mem_cons, List.mem_singleton, List.not_mem_nil, or_false] at he
    rcases he with h | h | h | h | h <;> exact ⟨_, h⟩
  · have key : ∀ a b : String, a.length ≠ b.length → a ++ host.Name ≠ b ++ host.Name := by
      intro a b h he
      have hl := congrArg String.length he
      simp only [String.length_append] at hl
      omega
    simp only [stepErrors, List.nodup_cons, List.mem_cons, List.mem_singleton, List.not_mem_nil,
      or_false, not_or, List.nodup_nil, and_true, not_false_eq_true]
    refine ⟨⟨?_, ?_, ?_, ?_⟩, ⟨?_, ?_, ?_⟩, ⟨?_, ?_⟩, ?_⟩ <;> exact key _ _ (by decide)

/-- C6 at a failing input: only the medium flag is set, the platform is
vSphere, and the tool fails on `vm.clone`, so `deployPackage` returns an error
for the only host; yet the `Run` function returns and the process ends with
status 0 (the same holds for the large flag). With the small flag the same
failure ends the process with status 1. -/
theorem deployCmdRun_medium_error_exit_zero :
    checkFlags ⟨false, true, false⟩ = none ∧
    (deployPackage failingTool exVcEnviron mediumPackage exServer []).1 =
      some "failed to create virtual machine splunk01" ∧
    deployCmdRun ⟨false, true, false⟩ exVcConfig failingTool emptyEnviron =
      (.ret (), [Event.govc (exCloneArgs mediumPackage)]) ∧
    exitCode (deployCmdRun ⟨false, true, false⟩ exVcConfig failingTool emptyEnviron).1 = 0 ∧
    exitCode (deployCmdRun ⟨false, false, true⟩ exVcConfig failingTool emptyEnviron).1 = 0 ∧
    deployCmdRun ⟨true, false, false⟩ exVcConfig failingTool emptyEnviron =
      (.exit 1, [Event.govc (exCloneArgs smallPackage)]) := by
  decide

/-- The vSphere scenario with a forced failure of the third step: the tool is
invoked three times, the customize and power steps are never invoked, and the
error is the one of the NIC step. -/
theorem deployPackage_nic_failure_example :
    deployPackage nicFailingTool exVcEnviron smallPackage exServer [] =
      (some "failed to set vmxnet3 adapter to start connected on virtual machine splunk01",
       [Event.govc (exCloneArgs smallPackage),
        Event.govc ["vm.disk.create", "-vm", "splunk01", "-name", "splunk01/splunk01_001",
          "-size", "10G", "-thick=true"],
        Event.govc ["device.connect", "-vm", "splunk01", "ethernet-0"]]) := by
  decide

/-- C7: once the configuration is loaded, the URL derived and the template
resolved, let the clone POST be answered with status `c`. If `c` is outside
`200..299`, `Deploy` ends the process with status 1 and the trace stops at the
clone POST. If `c` is inside, `Deploy` goes on to the 30-second wait; and when
the new host then resolves and the disk POST is answered with status `c2`,
`Deploy` returns success if `c2` is inside `200..299` and ends the process
with status 1 otherwise, the trace stopping at the disk POST. A POST that
fails at transport level yields status 0 and so ends the process with status
1 as well. -/
theorem Deploy_status_classification (cfg : Config) (w : World) (ahv a0 a1 : AHVCluster)
    (p : Package) (srv : Server) (t t1 t2 : Trace) (T resp : String) (c : Int)
    (h0 : cfg.ahv ahv = (none, a0)) (h1 : a0.SanitizeURL = some a1)
    (h2 : a1.GetVMUUID w a1.Template t = ((T, none), t1))
    (h3 : a1.CloneVM w p srv T t1 = ((resp, c), t2)) :
    (¬ (200 ≤ c ∧ c ≤ 299) → AHVCluster.Deploy cfg w ahv p srv t = (.exit 1, a1, t2)) ∧
    ((200 ≤ c ∧ c ≤ 299) →
      (∃ rest, (AHVCluster.Deploy cfg w ahv p srv t).2.2 = t2 ++ Event.sleep 30 :: rest) ∧
      ∀ (U resp2 : String) (c2 : Int) (t4 t5 : Trace),
        a1.GetVMUUID w srv.Name (t2 ++ [Event.sleep 30]) = ((U, none), t4) →
        a1.AttachDisk w p U t4 = ((resp2, c2), t5) →
        ((200 ≤ c2 ∧ c2 ≤ 299) → AHVCluster.Deploy cfg w ahv p srv t = (.ret none, a1, t5)) ∧
        (¬ (200 ≤ c2 ∧ c2 ≤ 299) → AHVCluster.Deploy cfg w ahv p srv t = (.exit 1, a1, t5))) ∧
    (∀ e, w.httpPost t1 (a1.URL ++ ("vms/" ++ T ++ "/clone"))
        (a1.GenerateVMClonePayload p srv T) = .transport e →
      c = 0 ∧ AHVCluster.Deploy cfg w ahv p srv t = (.exit 1, a1, t2)) ∧
    (∀ (e U : String) (t4 : Trace), (200 ≤ c ∧ c ≤ 299) →
      a1.GetVMUUID w srv.Name (t2 ++ [Event.sleep 30]) = ((U, none), t4) →
      w.httpPost t4 (a1.URL ++ ("vms/" ++ U ++ "/disks/attach"))
        (a1.GenerateDiskPayload p) = .transport e →
      AHVCluster.Deploy cfg w ahv p srv t = (.exit 1, a1, t4 ++
        [Event.post (a1.URL ++ ("vms/" ++ U ++ "/disks/attach")) (a1.GenerateDiskPayload p)])) := by
  have hD := Deploy_after_clone cfg w ahv a0 a1 p srv t t1 t2 T resp c h0 h1 h2 h3
  refine ⟨?_, ?_, ?_, ?_⟩
  · intro hc
    rw [hD]
    have : ¬ (c ≥ 200 ∧ c ≤ 299) := fun h => hc ⟨h.1, h.2⟩
    simp only [this, if_false]
  · intro hc
    have hc2 : c ≥ 200 ∧ c ≤ 299 := ⟨hc.1, hc.2⟩
    rw [hD]
    simp only [hc2, and_self, if_true]
    refine ⟨?_, ?_⟩
    · obtain ⟨r1, hr1⟩ := GetVMUUID_trace_extends w a1 srv.Name (t2 ++ [Event.sleep 30])
      rcases hg : a1.GetVMUUID w srv.Name (t2 ++ [Event.sleep 30]) with ⟨⟨u, e⟩, t4⟩
      rw [hg] at hr1
      simp only at hr1
      cases e with
      | some err => exact ⟨r1, by simp [hr1]⟩
      | none =>
        obtain ⟨r2, hr2⟩ := AttachDisk_trace_extends w a1 p u t4
        rcases ha : a1.AttachDisk w p u t4 with ⟨⟨b, c2⟩, t5⟩
        rw [ha] at hr2
        simp only at hr2
        refine ⟨r1 ++ r2, ?_⟩
        simp only [ha]
        by_cases hcc : c2 ≥ 200 ∧ c2 ≤ 299
        · simp only [hcc, and_self, if_true]
          rw [hr2, hr1]
          simp
        · simp only [hcc, if_false]
          rw [hr2, hr1]
          simp
    · intro U resp2 c2 t4 t5 hg ha
      simp only [hg, ha]
      constructor
      · intro h
        have : c2 ≥ 200 ∧ c2 ≤ 299 := ⟨h.1, h.2⟩
        simp only [this, and_self, if_true]
      · intro h
        have : ¬ (c2 ≥ 200 ∧ c2 ≤ 299) := fun h2 => h ⟨h2.1, h2.2⟩
        simp only [this, if_false]
  · intro e he
    have hcl := CloneVM_of_transport w a1 p srv T t1 e he
    rw [hcl] at h3
    simp only [Prod.mk.injEq] at h3
    obtain ⟨⟨_, hc⟩, ht⟩ := h3
    subst hc
    refine ⟨rfl, ?_⟩
    rw [hD]
    simp
  · intro e U t4 hc hg he
    have hc2 : c ≥ 200 ∧ c ≤ 299 := ⟨hc.1, hc.2⟩
    rw [hD]
    simp only [hc2, and_self, if_true, hg, AttachDisk_of_transport w a1 p U t4 e he]
    simp

/-- C7 on the example cluster: a clone POST answered 300, 404 or 500 ends the
process after two calls; with the clone accepted, a disk POST answered 200,
201 or 299 makes `Deploy` return success. -/
theorem Deploy_status_classification_witness :
    AHVCluster.Deploy exConfig (exWorld 300 202) AHVCluster.zero smallPackage exServer [] =
      (.exit 1, exAhvSanitized, exTrace.take 2) ∧
    AHVCluster.Deploy exConfig (exWorld 404 202) AHVCluster.zero smallPackage exServer [] =
      (.exit 1, exAhvSanitized, exTrace.take 2) ∧
    AHVCluster.Deploy exConfig (exWorld 500 202) AHVCluster.zero smallPackage exServer [] =
      (.exit 1, exAhvSanitized, exTrace.take 2) ∧
    AHVCluster.Deploy exConfig (exWorld 202 200) AHVCluster.zero smallPackage exServer [] =
      (.ret none, exAhvSanitized, exTrace) ∧
    AHVCluster.Deploy exConfig (exWorld 202 201) AHVCluster.zero smallPackage exServer [] =
      (.ret none, exAhvSanitized, exTrace) ∧
    AHVCluster.Deploy exConfig (exWorld 202 299) AHVCluster.zero smallPackage exServer [] =
      (.ret none, exAhvSanitized, exTrace) :=
  ⟨(Deploy_status_classification exConfig (exWorld 300 202) AHVCluster.zero exAhv exAhvSanitized
      smallPackage exServer [] (exTrace.take 1) (exTrace.take 2) "uuid-A" "" 300
      rfl (by decide) (by decide) (by decide)).1 (by decide),
   (Deploy_status_classification exConfig (exWorld 404 202) AHVCluster.zero exAhv exAhvSanitized
      smallPackage exServer [] (exTrace.take 1) (exTrace.take 2) "uuid-A" "" 404
      rfl (by decide) (by decide) (by decide)).1 (by decide),
   (Deploy_status_classification exConfig (exWorld 500 202) AHVCluster.zero exAhv exAhvSanitized
      smallPackage exServer [] (exTrace.take 1) (exTrace.take 2) "uuid-A" "" 500
      rfl (by decide) (by decide) (by decide)).1 (by decide),
   (((Deploy_status_classification exConfig (exWorld 202 200) AHVCluster.zero exAhv exAhvSanitized
      smallPackage exServer [] (exTrace.take 1) (exTrace.take 2) "uuid-A" "" 202
      rfl (by decide) (by decide) (by decide)).2.1 (by decide)).2
        "uuid-B" "" 200 (exTrace.take 4) exTrace (by decide) (by decide)).1 (by decide),
   (((Deploy_status_classification exConfig (exWorld 202 201) AHVCluster.zero exAhv exAhvSanitized
      smallPackage exServer [] (exTrace.take 1) (exTrace.take 2) "uuid-A" "" 202
      rfl (by decide) (by decide) (by decide)).2.1 (by decide)).2
        "uuid-B" "" 201 (exTrace.take 4) exTrace (by decide) (by decide)).1 (by decide),
   (((Deploy_status_classification exConfig (exWorld 202 299) AHVCluster.zero exAhv exAhvSanitized
      smallPackage exServer [] (exTrace.take 1) (exTrace.take 2) "uuid-A" "" 202
      rfl (by decide) (by decide) (by decide)).2.1 (by decide)).2
        "uuid-B" "" 299 (exTrace.take 4) exTrace (by decide) (by decide)).1 (by decide)⟩

/-- C8: the payload built by `GenerateDiskPayload` has device bus `SCSI`,
device index 1, the configured storage-container UUID, and as size the decimal
text of the Go `int` product `AppDiskGB * 1000000000`. That product is the
exact integer whenever it fits in 64 bits, which it does for the three catalog
tiers; for `AppDiskGB = 10` the size reads `10000000000`. -/
theorem GenerateDiskPayload_size (ahv : AHVCluster) (p : Package) :
    ahv.GenerateDiskPayload p =
      "\x7b\n\t\t\"vm_disks\": [\n\t\t  \x7b\n\t\t\t\"disk_address\": \x7b\n\t\t\t  \"device_bus\": \"SCSI\",\n\t\t\t  \"device_index\": 1,\n\t\t\t  \"is_cdrom\": false\n\t\t\t\x7d,\n\t\t\t\"vm_disk_create\": \x7b\n\t\t\t  \"size\": " ++
      toString (wrapInt (p.AppDiskGB * 1000000000)) ++
      ",\n\t\t\t  \"storage_container_uuid\": \"" ++ ahv.StorageContainerUUID ++
      "\"\n\t\t\t\x7d\n\t\t  \x7d\n\t\t]\n\t  \x7d" ∧
    (-(2 : Int) ^ 63 ≤ p.AppDiskGB * 1000000000 ∧ p.AppDiskGB * 1000000000 < 2 ^ 63 →
      wrapInt (p.AppDiskGB * 1000000000) = p.AppDiskGB * 1000000000) ∧
    (p = smallPackage ∨ p = mediumPackage ∨ p = largePackage →
      wrapInt (p.AppDiskGB * 1000000000) = p.AppDiskGB * 1000000000) ∧
    (p.AppDiskGB = 10 → toString (wrapInt (p.AppDiskGB * 1000000000)) = "10000000000") := by
  refine ⟨rfl, wrapInt_of_inRange _, ?_, ?_⟩
  · rintro (h | h | h) <;> subst h <;> decide
  · intro h
    rw [h]
    decide

/-- C8 at the small tier (`AppDiskGB = 10`): the size field is `10000000000`. -/
theorem GenerateDiskPayload_size_witness :
    exAhv.GenerateDiskPayload smallPackage =
      "\x7b\n\t\t\"vm_disks\": [\n\t\t  \x7b\n\t\t\t\"disk_address\": \x7b\n\t\t\t  \"device_bus\": \"SCSI\",\n\t\t\t  \"device_index\": 1,\n\t\t\t  \"is_cdrom\": false\n\t\t\t\x7d,\n\t\t\t\"vm_disk_create\": \x7b\n\t\t\t  \"size\": 10000000000,\n\t\t\t  \"storage_container_uuid\": \"sc-1\"\n\t\t\t\x7d\n\t\t  \x7d\n\t\t]\n\t  \x7d" := by
  have h := GenerateDiskPayload_size exAhv smallPackage
  rw [h.1, h.2.2.2 rfl]
  decide

/-- C9: when the configuration loads, the URL is derived, the template name
resolves to `T`, the clone POST is answered with a status in `200..299`, the
host name then resolves to `U` and the disk POST is answered with a status in
`200..299`, `Deploy` returns success after exactly these calls: GET `vms`;
POST `vms/T/clone` with the clone payload; the 30-second wait; GET `vms`; POST
`vms/U/disks/attach` with the disk payload. The clone payload carries the host
name, the tier memory and CPU count, one core per vCPU, the network UUID, the
host IP address and `request_ip` false; the disk payload carries the size
`AppDiskGB * 1000000000` computed in Go `int`. -/
theorem Deploy_rest_workflow (cfg : Config) (w : World) (ahv a0 a1 : AHVCluster)
    (p : Package) (srv : Server) (t : Trace) (T U r1 r2 : String) (c1 c2 : Int)
    (h0 : cfg.ahv ahv = (none, a0)) (h1 : a0.SanitizeURL = some a1)
    (hT : (a1.GetVMUUID w a1.Template t).1 = (T, none))
    (hC : w.httpPost (t ++ [Event.get (a1.URL ++ "vms")])
      (a1.URL ++ ("vms/" ++ T ++ "/clone")) (a1.GenerateVMClonePayload p srv T) =
        .response (r1, c1))
    (hc1 : 200 ≤ c1 ∧ c1 ≤ 299)
    (hU : (a1.GetVMUUID w srv.Name (t ++ [Event.get (a1.URL ++ "vms"),
      Event.post (a1.URL ++ ("vms/" ++ T ++ "/clone")) (a1.GenerateVMClonePayload p srv T),
      Event.sleep 30])).1 = (U, none))
    (hA : w.httpPost (t ++ [Event.get (a1.URL ++ "vms"),
      Event.post (a1.URL ++ ("vms/" ++ T ++ "/clone")) (a1.GenerateVMClonePayload p srv T),
      Event.sleep 30, Event.get (a1.URL ++ "vms")])
      (a1.URL ++ ("vms/" ++ U ++ "/disks/attach")) (a1.GenerateDiskPayload p) =
        .response (r2, c2))
    (hc2 : 200 ≤ c2 ∧ c2 ≤ 299) :
    AHVCluster.Deploy cfg w ahv p srv t =
      (.ret none, a1, t ++ [Event.get (a1.URL ++ "vms"),
        Event.post (a1.URL ++ ("vms/" ++ T ++ "/clone")) (a1.GenerateVMClonePayload p srv T),
        Event.sleep 30,
        Event.get (a1.URL ++ "vms"),
        Event.post (a1.URL ++ ("vms/" ++ U ++ "/disks/attach")) (a1.GenerateDiskPayload p)]) ∧
    a1.GenerateVMClonePayload p srv T =
      "\x7b\n\t\t\"spec_list\": [\n\t\t\t\x7b\n\t\t\t\t\"name\": \"" ++ srv.Name ++
      "\",\n\t\t\t\t\"memory_mb\": " ++ toString p.MemoryMB ++
      ",\n\t\t\t\t\"num_vcpus\": " ++ toString p.Cpu ++
      ",\n\t\t\t\t\"num_cores_per_vcpu\": 1,\n\t\t\t\t\"vm_nics\": [\n\t\t\t\t\t\x7b\n\t\t\t\t\t\t\"adapter_type\": \"Vmxnet3\",\n\t\t\t\t\t\t\"network_uuid\": \"" ++
      a1.NetworkUUID ++
      "\",\n\t\t\t\t\t\t\"ip_address\": \"" ++ srv.IPAddress ++
      "\"\n\t\t\t\t\t\x7d\n\t\t\t\t],\n\t\t\t\t\"request_ip\": false\n\t\t\t\x7d\n\t\t]\n\t\x7d" ∧
    a1.GenerateDiskPayload p =
      "\x7b\n\t\t\"vm_disks\": [\n\t\t  \x7b\n\t\t\t\"disk_address\": \x7b\n\t\t\t  \"device_bus\": \"SCSI\",\n\t\t\t  \"device_index\": 1,\n\t\t\t  \"is_cdrom\": false\n\t\t\t\x7d,\n\t\t\t\"vm_disk_create\": \x7b\n\t\t\t  \"size\": " ++
      toString (wrapInt (p.AppDiskGB * 1000000000)) ++
      ",\n\t\t\t  \"storage_container_uuid\": \"" ++ a1.StorageContainerUUID ++
      "\"\n\t\t\t\x7d\n\t\t  \x7d\n\t\t]\n\t  \x7d" := by
  refine ⟨?_, rfl, rfl⟩
  have hT2 := GetVMUUID_of_ok w a1 a1.Template T t hT
  have hCl := CloneVM_of_response w a1 p srv T _ r1 c1 hC
  have hD := Deploy_after_clone cfg w ahv a0 a1 p srv t _ _ T r1 c1 h0 h1 hT2 hCl
  have hU2 := GetVMUUID_of_ok w a1 srv.Name U _ hU
  have e1 : t ++ [Event.get (a1.URL ++ "vms")] ++
      [Event.post (a1.URL ++ ("vms/" ++ T ++ "/clone")) (a1.GenerateVMClonePayload p srv T)] ++
      [Event.sleep 30] = t ++ [Event.get (a1.URL ++ "vms"),
      Event.post (a1.URL ++ ("vms/" ++ T ++ "/clone")) (a1.GenerateVMClonePayload p srv T),
      Event.sleep 30] := by simp
  have e2 : t ++ [Event.get (a1.URL ++ "vms"),
      Event.post (a1.URL ++ ("vms/" ++ T ++ "/clone")) (a1.GenerateVMClonePayload p srv T),
      Event.sleep 30] ++ [Event.get (a1.URL ++ "vms")] = t ++ [Event.get (a1.URL ++ "vms"),
      Event.post (a1.URL ++ ("vms/" ++ T ++ "/clone")) (a1.GenerateVMClonePayload p srv T),
      Event.sleep 30, Event.get (a1.URL ++ "vms")] := by simp
  rw [e2] at hU2
  have hAt := AttachDisk_of_response w a1 p U _ r2 c2 hA
  have hc1g : c1 ≥ 200 ∧ c1 ≤ 299 := ⟨hc1.1, hc1.2⟩
  have hc2g : c2 ≥ 200 ∧ c2 ≤ 299 := ⟨hc2.1, hc2.2⟩
  rw [hD]
  simp only [hc1g, and_self, if_true, e1, hU2, hAt, hc2g]
  simp

/-- C9 on the example cluster: host `splunk01` / `10.0.0.5`, small tier,
template `tmpl-base` resolving to `uuid-A`, both POSTs answered 202. The clone
payload of `exTrace` has `num_vcpus` 2 and `memory_mb` 8096, the disk payload
has size 10000000000. -/
theorem Deploy_rest_workflow_witness :
    AHVCluster.Deploy exConfig (exWorld 202 202) AHVCluster.zero smallPackage exServer [] =
      (.ret none, exAhvSanitized, exTrace) :=
  (Deploy_rest_workflow exConfig (exWorld 202 202) AHVCluster.zero exAhv exAhvSanitized
    smallPackage exServer [] "uuid-A" "uuid-B" "" "" 202 202
    rfl (by decide) (by decide) (by decide) (by decide) (by decide) (by decide)
    (by decide)).1.trans (by decide)

/-- C10: for a non-empty base URL `u`, `SanitizeURL` sets the URL to `u`
followed by the API root, with a `/` in between only when `u` does not end in
`/`; a second application appends the API root once more, and the result
differs from the once-sanitized URL. -/
theorem SanitizeURL_appends_root_not_idempotent (ahv : AHVCluster) (h : ahv.URL ≠ "") :
    ∃ a1 a2 : AHVCluster,
      ahv.SanitizeURL = some a1 ∧
      a1.URL = ahv.URL ++ (if ahv.URL.drop (ahv.URL.length - 1) = "/" then "" else "/") ++
        "PrismGateway/services/rest/v2.0/" ∧
      a1.SanitizeURL = some a2 ∧
      a2.URL = a1.URL ++ "PrismGateway/services/rest/v2.0/" ∧
      a2.URL ≠ a1.URL := by
  have h1 := SanitizeURL_of_ne ahv h
  generalize hx : ahv.URL ++ (if ahv.URL.drop (ahv.URL.length - 1) = "/" then "" else "/") = x
    at h1
  have hne : x ++ "PrismGateway/services/rest/v2.0/" ≠ "" := append_root_ne_empty x
  have h2 := SanitizeURL_of_ne
    { ahv with URI := "PrismGateway/services/rest/v2.0/",
               URL := x ++ "PrismGateway/services/rest/v2.0/" } hne
  simp only [drop_last_append_root, if_true, String.append_empty] at h2
  exact ⟨_, _, h1, rfl, h2, rfl, append_ne_self _ _ (by decide)⟩

/-- Witness for C10 at the base URL `https://prism:9440`. -/
theorem SanitizeURL_appends_root_not_idempotent_witness :
    ∃ a1 a2 : AHVCluster,
      AHVCluster.SanitizeURL { AHVCluster.zero with URL := "https://prism:9440" } = some a1 ∧
      a1.URL = "https://prism:9440/PrismGateway/services/rest/v2.0/" ∧
      a1.SanitizeURL = some a2 ∧
      a2.URL = "https://prism:9440/PrismGateway/services/rest/v2.0/PrismGateway/services/rest/v2.0/" ∧
      a2.URL ≠ a1.URL := by
  obtain ⟨a1, a2, h1, h2, h3, h4, h5⟩ := SanitizeURL_appends_root_not_idempotent
    { AHVCluster.zero with URL := "https://prism:9440" } (by decide)
  have h2c : a1.URL = "https://prism:9440/PrismGateway/services/rest/v2.0/" := by
    rw [h2]; decide
  refine ⟨a1, a2, h1, h2c, h3, ?_, h5⟩
  rw [h4, h2c]; decide

end Gosplunk
